import Mathlib

/-!
Shallow embedding of the feed/metadata storage engine of the
vscode-podcasts extension (src/storage.ts, src/util.ts and the vendored
podcast parser in src/3rdparty/podcast-parser.ts).

JavaScript objects used as string-keyed dictionaries are embedded as
association lists (`List (String × α)`) with JS-object update semantics:
assignment to an existing key updates it in place, assignment to a new key
appends it.  Timestamps and durations are embedded as `Int` (JS numbers in
the integral range used by the program).  `undefined`/absent fields are
`Option`.  Asynchronous operations are embedded as pure state-passing
functions; fallible operations return `Except Unit`.  Network and
filesystem effects are supplied by explicit oracles.
-/

namespace Podcasts

/-! ## JS dictionary primitives -/

/-- `m[k]` read on a JS object: `some` value, or `none` for `undefined`. -/
def objGet {α : Type} (m : List (String × α)) (k : String) : Option α :=
  (m.find? (fun p => p.1 == k)).map (fun p => p.2)

/-- `k in m` on a JS object. -/
def objHas {α : Type} (m : List (String × α)) (k : String) : Bool :=
  m.any (fun p => p.1 == k)

/-- `m[k] = v` on a JS object: update in place if the key exists, else append. -/
def objSet {α : Type} (m : List (String × α)) (k : String) (v : α) :
    List (String × α) :=
  if objHas m k then m.map (fun p => if p.1 == k then (k, v) else p)
  else m ++ [(k, v)]

/-- `delete m[k]` on a JS object. -/
def objDelete {α : Type} (m : List (String × α)) (k : String) :
    List (String × α) :=
  m.filter (fun p => p.1 != k)

/-- `Object.keys(m)`. -/
def objKeys {α : Type} (m : List (String × α)) : List String :=
  m.map (fun p => p.1)

/-- JS string truthiness: `undefined` and the empty string are falsy. -/
def jsTruthy (s : Option String) : Bool :=
  match s with
  | none => false
  | some t => t ≠ ""

/-- JS `a || b` on two possibly-undefined strings: returns `b` (as is)
when `a` is falsy. -/
def jsOr (a b : Option String) : Option String :=
  if jsTruthy a then a else b

/-- JS `guid || url` where `guid` may be `undefined` and `url` is a string
(the episode-identity fallback of `loadPodcastFeed`). -/
def jsKey (guid : Option String) (url : String) : String :=
  match jsOr guid (some url) with
  | some s => s
  | none => url

/-! ## Data model (interfaces of src/storage.ts) -/

/-- `LocalEpisodeMetadata` of src/storage.ts. -/
structure LocalEpisodeMetadata where
  title : String
  description : Option String
  homepageUrl : Option String
  duration : Option Int
  published : Option Int
  enclosureUrl : String
  deriving DecidableEq, Repr

/-- `LocalDownloadedEpisodeMetadata` of src/storage.ts. -/
structure LocalDownloadedEpisodeMetadata where
  filename : String
  deriving DecidableEq, Repr

/-- `LocalPodcastMetadata` of src/storage.ts. -/
structure LocalPodcastMetadata where
  title : String
  description : Option String
  homepageUrl : String
  episodes : List (String × LocalEpisodeMetadata)
  lastRefreshed : Int
  downloaded : List (String × LocalDownloadedEpisodeMetadata)
  deriving DecidableEq, Repr

/-- `RoamingEpisodeMetadata` of src/storage.ts. -/
structure RoamingEpisodeMetadata where
  completed : Bool
  lastPosition : Option Int
  lastPlayed : Option Int
  deriving DecidableEq, Repr

/-- `RoamingPodcastMetadata` of src/storage.ts. -/
structure RoamingPodcastMetadata where
  starred : Bool
  episodes : List (String × RoamingEpisodeMetadata)
  deriving DecidableEq, Repr

/-- `LocalStorageMetadata` of src/storage.ts. -/
structure LocalStorageMetadata where
  podcasts : List (String × LocalPodcastMetadata)
  deriving DecidableEq, Repr

/-- `RoamingStorageMetadata` of src/storage.ts. -/
structure RoamingStorageMetadata where
  podcasts : List (String × RoamingPodcastMetadata)
  deriving DecidableEq, Repr

/-- `StorageMetadata` of src/storage.ts; the TS field `local` is named
`localData` here because `local` is a Lean keyword. -/
structure StorageMetadata where
  localData : LocalStorageMetadata
  roaming : RoamingStorageMetadata
  deriving DecidableEq, Repr

/-! ## Parser fragment (src/3rdparty/podcast-parser.ts)

Only the per-item logic the claims are about is embedded: the assembly of
an item's `description` sub-object from `itunes:summary` /
`description` text nodes and its coalescing at `onclosetag('item')`, and
the `itunes:duration` text-map function. -/

/-- The `tmpEpisode.description` sub-object while an `item` is open:
`itunes:summary` text is written to `description.primary`, `description`
text to `description.alternate`. -/
structure TmpDescription where
  primary : Option String
  alternate : Option String
  deriving DecidableEq, Repr

/-- A runtime JS value sitting in an episode's `description` field: either
a plain string (what the parser actually produces at `onclosetag`) or the
`{primary?, alternate?}` object declared by the parser's `Episode`
interface. -/
inductive EpisodeDescValue where
  | str (s : String)
  | obj (primary : Option String) (alternate : Option String)
  deriving DecidableEq, Repr

/-- Property read `d.primary` on whatever value the `description` field
holds: `undefined` when the value is a plain string. -/
def descPrimary (d : EpisodeDescValue) : Option String :=
  match d with
  | .str _ => none
  | .obj p _ => p

/-- Property read `d.alternate`; `undefined` when the value is a string. -/
def descAlternate (d : EpisodeDescValue) : Option String :=
  match d with
  | .str _ => none
  | .obj _ a => a

/-- `onclosetag('item')` description coalescing:
`tmpEpisode.description.primary || tmpEpisode.description.alternate || ''`. -/
def coalesceDescription (d : TmpDescription) : String :=
  match jsOr d.primary (jsOr d.alternate (some "")) with
  | some s => s
  | none => ""

/-- The value left in the pushed episode's `description` field by
`onclosetag('item')`: the coalesced plain string. -/
def closeItemDescription (d : TmpDescription) : EpisodeDescValue :=
  EpisodeDescValue.str (coalesceDescription d)

/-! ### `itunes:duration` parsing -/

/-- `text.split(':')` (JS `String.prototype.split` with a one-character
separator), structurally recursive over the character list. -/
def splitColonAux : List Char → List Char → List String
  | [], acc => [String.mk acc.reverse]
  | c :: rest, acc =>
      if c = ':' then String.mk acc.reverse :: splitColonAux rest []
      else splitColonAux rest (c :: acc)

/-- `text.split(':')` on a string. -/
def splitColon (s : String) : List String :=
  splitColonAux s.data []

/-- JS `parseInt` restricted to the inputs the duration parser feeds it:
the longest prefix of decimal digits is parsed; `none` embeds `NaN`
(no leading digits). -/
def jsParseInt (s : String) : Option Int :=
  let digits := s.data.takeWhile (fun c => c.isDigit)
  if digits.isEmpty then none
  else some (Int.ofNat (digits.foldl (fun acc c => acc * 10 + (c.toNat - 48)) 0))

/-- `steps = [60, 60, 24]` of the `itunes:duration` reducer. -/
def durationSteps : List Nat := [60, 60, 24]

/-- The reducer's `while (index--) muliplier *= steps[index]` loop:
the multiplier for the component at (reversed) position `index` is the
product `steps[index-1] * ... * steps[0]`; reading `steps[3]` yields
`undefined`, poisoning the product to `NaN` (embedded as `none`). -/
def durationMultiplier : Nat → Option Int
  | 0 => some 1
  | n + 1 =>
      match durationSteps[n]? with
      | none => none
      | some s =>
          match durationMultiplier n with
          | none => none
          | some m => some (Int.ofNat s * m)

/-- The `reduce` over the reversed component list, `index` running from 0:
`acc + parseInt(val) * muliplier`, with `NaN` (`none`) propagating. -/
def reduceDurationAux : Nat → Option Int → List String → Option Int
  | _, acc, [] => acc
  | index, acc, c :: rest =>
      reduceDurationAux (index + 1)
        (match acc, jsParseInt c, durationMultiplier index with
         | some a, some v, some m => some (a + v * m)
         | _, _, _ => none)
        rest

/-- The `reduce` of the `itunes:duration` text-map function. -/
def reduceDuration (components : List String) : Option Int :=
  reduceDurationAux 0 (some 0) components

/-- The `itunes:duration` text-map function of the parser:
`text.split(':').reverse().reduce(...)`. -/
def parseItunesDuration (text : String) : Option Int :=
  reduceDuration (splitColon text).reverse

/-! ## Parsed feed shape consumed by `Storage.loadPodcastFeed`

The runtime shape the vendored parser resolves with (note: `description`
of an episode is a coalesced plain string at runtime, its `EpisodeDescValue`
type records the dynamic value). -/

/-- The parser's `Enclosure`. -/
structure Enclosure where
  filesize : Option Int
  mimeType : Option String
  url : String
  deriving DecidableEq, Repr

/-- A parsed episode as consumed by `loadPodcastFeed`: field types follow
the runtime values the parser produces (`description` is dynamic). -/
structure ParsedEpisode where
  guid : Option String
  title : String
  description : EpisodeDescValue
  link : Option String
  published : Option Int
  duration : Option Int
  enclosure : Option Enclosure
  deriving DecidableEq, Repr

/-- A parsed podcast as consumed by `loadPodcastFeed`: `description` of
the channel really is a `{short?, long?}` object at runtime. -/
structure ParsedFeed where
  title : String
  descriptionShort : Option String
  descriptionLong : Option String
  link : String
  episodes : List ParsedEpisode
  deriving DecidableEq, Repr

/-! ## Storage engine state -/

/-- The observable state of a `Storage` instance together with the durable
storage and enclosure directory it owns.  `diskLocal`/`diskRoaming` are the
contents of `local.json`/`roaming.json` (`none` = file absent), `files` the
filenames present in the enclosures directory. -/
structure StorageState where
  metadata : StorageMetadata
  diskLocal : Option LocalStorageMetadata
  diskRoaming : Option RoamingStorageMetadata
  files : List String
  deriving DecidableEq, Repr

/-- `DEFAULT_STORAGE_METADATA` of src/storage.ts. -/
def DEFAULT_STORAGE_METADATA : StorageMetadata :=
  { localData := { podcasts := [] }
    roaming :=
      { podcasts :=
          [ ("https://rss.simplecast.com/podcasts/363/rss",
             { starred := true, episodes := [] }),
            ("https://feeds.simplecast.com/gvtxUiIf",
             { starred := true, episodes := [] }),
            ("http://feeds.feedburner.com/ProgrammingThrowdown",
             { starred := true, episodes := [] }),
            ("https://changelog.com/podcast/feed",
             { starred := true, episodes := [] }),
            ("https://feeds.simplecast.com/k0fI37e5",
             { starred := true, episodes := [] }) ] } }

/-- `Storage.loadMetadata`: start from the default, override each half by
the corresponding file's contents when that file exists. -/
def loadMetadata (diskLocal : Option LocalStorageMetadata)
    (diskRoaming : Option RoamingStorageMetadata) : StorageMetadata :=
  let meta := DEFAULT_STORAGE_METADATA
  let meta :=
    match diskLocal with
    | some l => { meta with localData := l }
    | none => meta
  let meta :=
    match diskRoaming with
    | some r => { meta with roaming := r }
    | none => meta
  meta

/-- `Storage.isStarredPodcast` (result coerced to `Bool` as the program
uses it). -/
def isStarredPodcast (st : StorageState) (feedUrl : String) : Bool :=
  match objGet st.metadata.roaming.podcasts feedUrl with
  | some podcast => podcast.starred
  | none => false

/-- `Storage.getStarredPodcastUrls`. -/
def getStarredPodcastUrls (st : StorageState) : List String :=
  ((st.metadata.roaming.podcasts.filter (fun p => p.2.starred)).map
    (fun p => p.1))

/-- `Storage.hasLocalPodcast`. -/
def hasLocalPodcast (st : StorageState) (url : String) : Bool :=
  objHas st.metadata.localData.podcasts url

/-- `Storage.getPodcast`: the `{local?, roaming?}` read-side join. -/
def getPodcast (st : StorageState) (url : String) :
    Option LocalPodcastMetadata × Option RoamingPodcastMetadata :=
  (objGet st.metadata.localData.podcasts url,
   objGet st.metadata.roaming.podcasts url)

/-- `Storage.getEpisode`. -/
def getEpisode (st : StorageState) (feedUrl guid : String) :
    Option LocalEpisodeMetadata × Option RoamingEpisodeMetadata :=
  let podcast := getPodcast st feedUrl
  (match podcast.1 with
   | some l => objGet l.episodes guid
   | none => none,
   match podcast.2 with
   | some r => objGet r.episodes guid
   | none => none)

/-- `Storage.purgeOldMetadata`: drop every local podcast that is not
starred, has no downloads, and was last refreshed more than 30 days before
`now`. -/
def purgeOldMetadata (now : Int) (st : StorageState) : StorageState :=
  let threshold := now - (1000 * 60 * 60 * 24 * 30)
  let podcasts := st.metadata.localData.podcasts.filter
    (fun p =>
      ¬ (isStarredPodcast st p.1 = false ∧ p.2.downloaded = [] ∧
         p.2.lastRefreshed < threshold))
  { st with metadata := { st.metadata with localData := { podcasts := podcasts } } }

/-- `Storage.saveMetadata`: `doLocal`/`doRoaming` are the effective flags
(`opts` absent means both).  The local save runs `purgeOldMetadata` first
and writes `metadata.local` to `local.json`; the roaming save writes
`metadata.roaming` to `roaming.json`. -/
def saveMetadata (now : Int) (doLocal doRoaming : Bool) (st : StorageState) :
    StorageState :=
  let st :=
    if doLocal then
      let st := purgeOldMetadata now st
      { st with diskLocal := some st.metadata.localData }
    else st
  if doRoaming then { st with diskRoaming := some st.metadata.roaming }
  else st

/-! ## Feed loading and pagination (`Storage.loadPodcastFeed`,
`Storage.updatePodcast`) -/

/-- The `duration: episode.duration ? episode.duration : undefined`
patch-up (`0` is falsy). -/
def durationField (d : Option Int) : Option Int :=
  match d with
  | some v => if v = 0 then none else some v
  | none => none

/-- The episode-record construction loop of `loadPodcastFeed`: episodes
without an enclosure are dropped; the identity key is
`episode.guid || episode.enclosure.url`; the stored description is
`episode.description.primary || episode.description.alternate` (property
reads on the runtime value of `description`). -/
def buildEpisodes (eps : List ParsedEpisode) :
    List (String × LocalEpisodeMetadata) :=
  eps.foldl
    (fun acc ep =>
      match ep.enclosure with
      | none => acc
      | some enc =>
          objSet acc (jsKey ep.guid enc.url)
            { title := ep.title
              description := jsOr (descPrimary ep.description)
                (descAlternate ep.description)
              homepageUrl := ep.link
              duration := durationField ep.duration
              published := ep.published
              enclosureUrl := enc.url })
    []

/-- The `LocalPodcastMetadata` object built by `loadPodcastFeed` from a
parsed page (before pagination handling): channel description is
`podcast.description.short || podcast.description.long`,
`lastRefreshed = Date.now()`, `downloaded = {}`. -/
def buildFeed (now : Int) (pf : ParsedFeed) : LocalPodcastMetadata :=
  { title := pf.title
    description := jsOr pf.descriptionShort pf.descriptionLong
    homepageUrl := pf.link
    lastRefreshed := now
    episodes := buildEpisodes pf.episodes
    downloaded := [] }

/-- What the network + parser yield for one URL: either a thrown
fetch/parse error, or a parsed page together with the outcome of
`getNextPageUrl` on it (`Except.error` = extraction threw). -/
inductive PageResponse where
  | fetchError
  | page (parsed : ParsedFeed) (nextPage : Except Unit (Option String))
  deriving Repr

/-- The network oracle: what fetching each URL produces. -/
def PageOracle : Type := String → PageResponse

/-- The `{feed, nextPageUrl}` record returned by `loadPodcastFeed`. -/
structure LoadedPage where
  feed : LocalPodcastMetadata
  nextPageUrl : Option String
  deriving DecidableEq, Repr

/-- `Storage.loadPodcastFeed`: a fetch or parse error propagates; an error
extracting the next-page URL is caught and leaves `nextPageUrl`
undefined. -/
def loadPodcastFeed (oracle : PageOracle) (now : Int) (url : String) :
    Except Unit LoadedPage :=
  match oracle url with
  | .fetchError => .error ()
  | .page parsed nextPage =>
      .ok
        { feed := buildFeed now parsed
          nextPageUrl :=
            match nextPage with
            | .error _ => none
            | .ok u => u }

/-- `Storage.arePagesOverlapping`. -/
def arePagesOverlapping (page1 : LocalPodcastMetadata)
    (page2 : Option LocalPodcastMetadata) : Bool :=
  match page2 with
  | none => false
  | some p2 => (objKeys page1.episodes).any (fun guid => objHas p2.episodes guid)

/-- `Storage.appendPage`: copy every episode of `page2` into `page1`
(entries of `page2` overwrite entries of `page1` on equal GUIDs). -/
def appendPage (page1 : LocalPodcastMetadata)
    (page2 : Option LocalPodcastMetadata) : LocalPodcastMetadata :=
  match page2 with
  | none => page1
  | some p2 =>
      { page1 with
        episodes := p2.episodes.foldl
          (fun acc p => objSet acc p.1 p.2) page1.episodes }

/-- The `while (nextPageUrl)` loop of `updatePodcast`.  `fuel` bounds the
number of iterations (the loop may chase next-page links forever on a
cyclic feed); running out of fuel is embedded as an error.  Returns the
final accumulated feed and the number of pages fetched. -/
def updateLoop (oracle : PageOracle) (now : Int)
    (old : Option LocalPodcastMetadata) :
    Nat → Option String → Option LocalPodcastMetadata → Nat →
    Except Unit (LocalPodcastMetadata × Nat)
  | _, none, feed, count =>
      match feed with
      | some f => .ok (f, count)
      | none => .error ()
  | 0, some _, _, _ => .error ()
  | fuel + 1, some nurl, feed, count =>
      -- `while (nextPageUrl)`: the empty string is falsy in JS
      if nurl = "" then
        match feed with
        | some f => .ok (f, count)
        | none => .error ()
      else
      match loadPodcastFeed oracle now nurl with
      | .error _ => .error ()
      | .ok page =>
          if arePagesOverlapping page.feed old then
            updateLoop oracle now old fuel none
              (some (appendPage page.feed old)) (count + 1)
          else
            updateLoop oracle now old fuel page.nextPageUrl
              (some (appendPage page.feed feed)) (count + 1)

/-- The body of `Storage.deleteEpisodeEnclosure` as invoked (un-awaited,
with `skipMetadataSave = true`) by the orphan sweep of `updatePodcast`.
When the feed or the download record for `guid` is missing, the property
read `feed.downloaded[guid].filename` throws inside the async function;
the rejection is unobserved by `updatePodcast`, so the state is
unchanged.  Otherwise the record is deleted and the file unlinked. -/
def deleteEnclosureAttempt (st : StorageState) (feedUrl guid : String) :
    StorageState :=
  match objGet st.metadata.localData.podcasts feedUrl with
  | none => st
  | some feed =>
      match objGet feed.downloaded guid with
      | none => st
      | some record =>
          let feed := { feed with downloaded := objDelete feed.downloaded guid }
          { st with
            metadata :=
              { st.metadata with
                localData :=
                  { podcasts :=
                      objSet st.metadata.localData.podcasts feedUrl feed } }
            files := st.files.erase record.filename }

/-- The orphan sweep `for (const guid in invalidGuids) ...` of
`updatePodcast`.  `invalidGuids` is an *array*, and `for...in` over an
array enumerates its indices as strings (`"0"`, `"1"`, ...), not its
elements, so `deleteEpisodeEnclosure` is called with the index strings. -/
def orphanSweep (st : StorageState) (feedUrl : String) (n : Nat) :
    StorageState :=
  (List.range n).foldl
    (fun st i => deleteEnclosureAttempt st feedUrl (toString i)) st

/-- `Storage.updatePodcast`: snapshot `old`, run the pagination loop,
carry `downloaded` over from `old`, store the merged feed, run the orphan
sweep, persist the local store.  A first-page (or any-page) fetch/parse
error propagates and no state is changed.  Returns the new state and the
number of pages fetched. -/
def updatePodcast (oracle : PageOracle) (fuel : Nat) (now : Int)
    (st : StorageState) (url : String) : Except Unit (StorageState × Nat) :=
  let old := objGet st.metadata.localData.podcasts url
  match updateLoop oracle now old fuel (some url) none 0 with
  | .error _ => .error ()
  | .ok (feed, fetchCount) =>
      let feed :=
        match old with
        | some o => { feed with downloaded := o.downloaded }
        | none => feed
      let st :=
        { st with
          metadata :=
            { st.metadata with
              localData :=
                { podcasts := objSet st.metadata.localData.podcasts url feed } } }
      let invalidGuids :=
        (objKeys feed.downloaded).filter (fun guid => ¬ objHas feed.episodes guid)
      let st := orphanSweep st url invalidGuids.length
      let st := saveMetadata now true false st
      .ok (st, fetchCount)

/-- `updatePodcast` as observed by a caller that catches the error and
keeps going: on failure the prior state is untouched.  The `Bool` records
success. -/
def tryUpdatePodcast (oracle : PageOracle) (fuel : Nat) (now : Int)
    (st : StorageState) (url : String) : StorageState × Bool :=
  match updatePodcast oracle fuel now st url with
  | .ok (st2, _) => (st2, true)
  | .error _ => (st, false)

/-- `Storage.fetchPodcast`: read-through cache.  `updateIfOlderThan` is the
optional absolute cutoff timestamp (`0` is falsy in the `if` guard).
Returns the new state, the number of `updatePodcast` invocations (0 or 1)
and the number of page fetches performed. -/
def fetchPodcast (oracle : PageOracle) (fuel : Nat) (now : Int)
    (st : StorageState) (url : String) (updateIfOlderThan : Option Int) :
    Except Unit (StorageState × Nat × Nat) :=
  if hasLocalPodcast st url then
    let cached := (getPodcast st url).1
    let lastRefreshed :=
      match cached with
      | some p => p.lastRefreshed
      | none => 0
    let truthy :=
      match updateIfOlderThan with
      | none => false
      | some t => t ≠ 0
    if truthy && decide (lastRefreshed < updateIfOlderThan.getD 0) then
      match updatePodcast oracle fuel now st url with
      | .error _ => .error ()
      | .ok (st2, fetches) => .ok (st2, 1, fetches)
    else
      .ok (st, 0, 0)
  else
    match updatePodcast oracle fuel now st url with
    | .error _ => .error ()
    | .ok (st2, fetches) => .ok (st2, 1, fetches)

/-! ## Roaming mutations -/

/-- `Storage.getOrCreateRoamingPodcast` (returns the updated roaming
table and the url's record). -/
def getOrCreateRoamingPodcast (st : StorageState) (feedUrl : String) :
    StorageState × RoamingPodcastMetadata :=
  let podcasts := st.metadata.roaming.podcasts
  let podcasts :=
    if objHas podcasts feedUrl then podcasts
    else objSet podcasts feedUrl { episodes := [], starred := false }
  let record :=
    match objGet podcasts feedUrl with
    | some p => p
    | none => { episodes := [], starred := false }
  ({ st with
     metadata := { st.metadata with roaming := { podcasts := podcasts } } },
   record)

/-- `Storage.starPodcast`: set `starred` on the (created-on-demand)
roaming record.  Note: no `saveMetadata` call. -/
def starPodcast (st : StorageState) (feedUrl : String) (star : Bool) :
    StorageState :=
  let (st, podcast) := getOrCreateRoamingPodcast st feedUrl
  let podcast := { podcast with starred := star }
  { st with
    metadata :=
      { st.metadata with
        roaming :=
          { podcasts := objSet st.metadata.roaming.podcasts feedUrl podcast } } }

/-- `Storage.getOrCreateRoamingEpisode`. -/
def getOrCreateRoamingEpisode (st : StorageState) (feedUrl guid : String) :
    StorageState × RoamingEpisodeMetadata :=
  let (st, podcast) := getOrCreateRoamingPodcast st feedUrl
  let episodes :=
    if objHas podcast.episodes guid then podcast.episodes
    else objSet podcast.episodes guid
      { completed := false, lastPosition := none, lastPlayed := none }
  let podcast := { podcast with episodes := episodes }
  let record :=
    match objGet episodes guid with
    | some e => e
    | none => { completed := false, lastPosition := none, lastPlayed := none }
  ({ st with
     metadata :=
       { st.metadata with
         roaming :=
           { podcasts := objSet st.metadata.roaming.podcasts feedUrl podcast } } },
   record)

/-- `Storage.storeListeningStatus`: mutate the (created-on-demand) roaming
episode record and persist the roaming store. -/
def storeListeningStatus (st : StorageState) (feedUrl guid : String)
    (completed : Bool) (position : Option Int) (now : Int) : StorageState :=
  let (st, episode) := getOrCreateRoamingEpisode st feedUrl guid
  let episode :=
    { episode with
      completed := completed
      lastPosition := position
      lastPlayed := some now }
  let podcast :=
    match objGet st.metadata.roaming.podcasts feedUrl with
    | some p => p
    | none => { episodes := [], starred := false }
  let podcast := { podcast with episodes := objSet podcast.episodes guid episode }
  let st :=
    { st with
      metadata :=
        { st.metadata with
          roaming :=
            { podcasts := objSet st.metadata.roaming.podcasts feedUrl podcast } } }
  saveMetadata now false true st

/-! ## Enclosure download (`Storage.fetchEpisodeEnclosure`,
`downloadFile` of src/util.ts) -/

/-- Outcome of `downloadFile(url, path)` for a given enclosure URL.
Per src/util.ts the download goes to a temporary file which is always
unlinked; only on success is it copied to the target path, so on failure
or cancellation no file appears at the target path. -/
inductive DownloadOutcome where
  | success
  | failure
  deriving DecidableEq, Repr

/-- The download oracle (network result per enclosure URL) together with
the duration probe oracle (`getAudioDuration` per file path, `none` =
probe error) and the chosen collision-free random filename. -/
structure EnclosureOracles where
  download : String → DownloadOutcome
  probeDuration : String → Option Int
  freshName : String

/-- `Storage.fetchEpisodeEnclosure`: resolve the feed via
`fetchPodcast(feedUrl)` (no staleness bound), download if not yet
downloaded, register the download record, patch up a missing duration via
the probe (probe failure tolerated), persist the local store, and return
the enclosure filename.  A missing episode record makes the property read
`episode.enclosureUrl` throw; a failed or cancelled download propagates
the error, in both cases with no state change visible to the caller. -/
def fetchEpisodeEnclosure (oracle : PageOracle) (enc : EnclosureOracles)
    (fuel : Nat) (now : Int) (st : StorageState) (feedUrl guid : String) :
    Except Unit (StorageState × String) :=
  match fetchPodcast oracle fuel now st feedUrl none with
  | .error _ => .error ()
  | .ok (st, _, _) =>
      match objGet st.metadata.localData.podcasts feedUrl with
      | none => .error ()
      | some feed =>
          if objHas feed.downloaded guid then
            match objGet feed.downloaded guid with
            | some record => .ok (st, record.filename)
            | none => .error ()
          else
            match objGet feed.episodes guid with
            | none => .error ()
            | some episode =>
                match enc.download episode.enclosureUrl with
                | .failure => .error ()
                | .success =>
                    let feed :=
                      { feed with
                        downloaded :=
                          objSet feed.downloaded guid { filename := enc.freshName } }
                    let episode :=
                      match episode.duration with
                      | some _ => episode
                      | none =>
                          match enc.probeDuration enc.freshName with
                          | some d => { episode with duration := some d }
                          | none => episode
                    let feed :=
                      { feed with episodes := objSet feed.episodes guid episode }
                    let st :=
                      { st with
                        metadata :=
                          { st.metadata with
                            localData :=
                              { podcasts :=
                                  objSet st.metadata.localData.podcasts feedUrl
                                    feed } }
                        files := st.files ++ [enc.freshName] }
                    let st := saveMetadata now true false st
                    .ok (st, enc.freshName)

/-- `fetchEpisodeEnclosure` as observed by a caller that catches the
error: on failure the prior state is untouched. -/
def tryFetchEpisodeEnclosure (oracle : PageOracle) (enc : EnclosureOracles)
    (fuel : Nat) (now : Int) (st : StorageState) (feedUrl guid : String) :
    StorageState × Bool :=
  match fetchEpisodeEnclosure oracle enc fuel now st feedUrl guid with
  | .ok (st2, _) => (st2, true)
  | .error _ => (st, false)

/-! ## Specification-side helpers -/

/-- `parseInt` applied to every component (embedding-side helper used to
state hypotheses about numeral components). -/
def parseComponents : List String → Option (List Int)
  | [] => some []
  | c :: rest =>
      match jsParseInt c, parseComponents rest with
      | some v, some vs => some (v :: vs)
      | _, _ => none

/-- The spec formula "sum of value * 60^position-from-right" over the
reversed (rightmost-first) component values:
`weightedSum [v0, v1, v2] = v0 + 60 * v1 + 3600 * v2`. -/
def weightedSum : List Int → Int
  | [] => 0
  | v :: rest => v + 60 * weightedSum rest

/-- Fallback value for reading a podcast out of an `Option`. -/
def emptyLocalPodcast : LocalPodcastMetadata :=
  { title := "", description := none, homepageUrl := "",
    episodes := [], lastRefreshed := 0, downloaded := [] }

/-! ## Concrete scenarios used by the claim theorems -/

/-- An episode record with only the identity-relevant fields filled in. -/
def sampleLocalEpisode (t u : String) : LocalEpisodeMetadata :=
  { title := t, description := none, homepageUrl := none,
    duration := none, published := none, enclosureUrl := u }

/-- A parsed episode with GUID `g`, title `t` and enclosure URL `u` (the
`description` string is what the parser's item-close coalescing leaves). -/
def sampleParsedEpisode (g t u : String) : ParsedEpisode :=
  { guid := some g, title := t, description := EpisodeDescValue.str "d",
    link := none, published := none, duration := none,
    enclosure := some { filesize := none, mimeType := none, url := u } }

/-- A parsed one-page feed with the given episodes. -/
def sampleParsedFeed (t : String) (eps : List ParsedEpisode) : ParsedFeed :=
  { title := t, descriptionShort := none, descriptionLong := none,
    link := "http://x", episodes := eps }

/-- A storage state holding exactly the given local podcasts, an empty
roaming store, no files on disk yet, and the given enclosure files. -/
def sampleState (podcasts : List (String × LocalPodcastMetadata))
    (files : List String) : StorageState :=
  { metadata := { localData := { podcasts := podcasts },
                  roaming := { podcasts := [] } },
    diskLocal := none, diskRoaming := none, files := files }

/-! ### C1: a downloaded episode that vanished from the feed -/

/-- Previously cached podcast: one episode `ep1`, downloaded to `f1`. -/
def C1old : LocalPodcastMetadata :=
  { title := "T", description := none, homepageUrl := "http://x",
    episodes := [("ep1", sampleLocalEpisode "E1" "http://x/1.mp3")],
    lastRefreshed := 0,
    downloaded := [("ep1", { filename := "f1" })] }

/-- Storage state with the cached podcast and its enclosure file. -/
def C1state : StorageState := sampleState [("u", C1old)] ["f1"]

/-- The refreshed upstream feed: `ep1` vanished, only `ep2` remains. -/
def C1oracle : PageOracle := fun url =>
  if url = "u" then
    .page (sampleParsedFeed "T" [sampleParsedEpisode "ep2" "E2" "http://x/2.mp3"])
      (.ok none)
  else .fetchError

/-- The state after the refresh. -/
def C1resultState : StorageState :=
  (tryUpdatePodcast C1oracle 5 100 C1state "u").1

/-- The stored podcast after the refresh. -/
def C1podcastAfter : LocalPodcastMetadata :=
  (objGet C1resultState.metadata.localData.podcasts "u").getD emptyLocalPodcast

/-! ### C2: paged feed with page 1 = {A,B}, page 2 = {B,C}, old = {A,B} -/

/-- Old cached episode A. -/
def C2epA0 : LocalEpisodeMetadata := sampleLocalEpisode "A-old" "http://x/a.mp3"

/-- Old cached episode B. -/
def C2epB0 : LocalEpisodeMetadata := sampleLocalEpisode "B-old" "http://x/b.mp3"

/-- Previously cached podcast with episodes {A, B}. -/
def C2old : LocalPodcastMetadata :=
  { title := "T", description := none, homepageUrl := "http://x",
    episodes := [("A", C2epA0), ("B", C2epB0)],
    lastRefreshed := 0, downloaded := [] }

/-- Storage state caching {A, B}. -/
def C2state : StorageState := sampleState [("u", C2old)] []

/-- Upstream page 1 = {A, B} (linking to page 2), page 2 = {B, C}. -/
def C2oracle : PageOracle := fun url =>
  if url = "u" then
    .page (sampleParsedFeed "P1"
        [sampleParsedEpisode "A" "A-new" "http://x/a.mp3",
         sampleParsedEpisode "B" "B-new" "http://x/b.mp3"])
      (.ok (some "p2"))
  else if url = "p2" then
    .page (sampleParsedFeed "P2"
        [sampleParsedEpisode "B" "B-new" "http://x/b.mp3",
         sampleParsedEpisode "C" "C-new" "http://x/c.mp3"])
      (.ok none)
  else .fetchError

/-- The state after the refresh. -/
def C2resultState : StorageState :=
  (tryUpdatePodcast C2oracle 5 100 C2state "u").1

/-- The stored podcast after the refresh. -/
def C2podcastAfter : LocalPodcastMetadata :=
  (objGet C2resultState.metadata.localData.podcasts "u").getD emptyLocalPodcast

/-- How many pages the refresh fetched. -/
def C2fetchCount : Nat :=
  match updatePodcast C2oracle 5 100 C2state "u" with
  | .ok (_, n) => n
  | .error _ => 0

/-! ### C3: failures on later pages -/

/-- No podcast cached yet. -/
def C3state : StorageState := sampleState [] []

/-- Page 1 = {A, B} linking to page 2; fetching page 2 throws. -/
def C3oracleFetchFail : PageOracle := fun url =>
  if url = "u" then
    .page (sampleParsedFeed "P1"
        [sampleParsedEpisode "A" "A-new" "http://x/a.mp3",
         sampleParsedEpisode "B" "B-new" "http://x/b.mp3"])
      (.ok (some "p2"))
  else .fetchError

/-- Page 1 = {A, B} linking to page 2; page 2 = {B, C} fetches fine but
extracting its next-page URL throws (the caught case). -/
def C3oracleExtractFail : PageOracle := fun url =>
  if url = "u" then
    .page (sampleParsedFeed "P1"
        [sampleParsedEpisode "A" "A-new" "http://x/a.mp3",
         sampleParsedEpisode "B" "B-new" "http://x/b.mp3"])
      (.ok (some "p2"))
  else if url = "p2" then
    .page (sampleParsedFeed "P2"
        [sampleParsedEpisode "B" "B-new" "http://x/b.mp3",
         sampleParsedEpisode "C" "C-new" "http://x/c.mp3"])
      (.error ())
  else .fetchError

/-- The state after the refresh in the caught (extraction-failure) case. -/
def C3resultState : StorageState :=
  (tryUpdatePodcast C3oracleExtractFail 5 100 C3state "u").1

/-- The stored podcast in the caught (extraction-failure) case. -/
def C3podcastAfter : LocalPodcastMetadata :=
  (objGet C3resultState.metadata.localData.podcasts "u").getD emptyLocalPodcast

/-! ### C6: starPodcast and persistence -/

/-- A state whose roaming file is on disk and in sync (both empty). -/
def C6state : StorageState :=
  { metadata := { localData := { podcasts := [] },
                  roaming := { podcasts := [] } },
    diskLocal := none, diskRoaming := some { podcasts := [] }, files := [] }

/-! ### C7: episode description through parser and storage -/

/-- An item carrying both an `itunes:summary` ("Great episode") and a
`description` ("Alt text") text. -/
def C7tmp : TmpDescription :=
  { primary := some "Great episode", alternate := some "Alt text" }

/-- The episode the parser pushes for that item (description already
coalesced to a plain string by `onclosetag`). -/
def C7item : ParsedEpisode :=
  { guid := some "g", title := "T",
    description := closeItemDescription C7tmp,
    link := none, published := none, duration := none,
    enclosure := some { filesize := none, mimeType := none, url := "http://x/1.mp3" } }

/-- The parsed feed holding that single item. -/
def C7feed : ParsedFeed := sampleParsedFeed "P" [C7item]

/-! ### C4, C5, C9 witness scenarios -/

/-- A cached podcast refreshed at timestamp 50 with one episode `e`. -/
def C4wPodcast : LocalPodcastMetadata :=
  { title := "T", description := none, homepageUrl := "http://x",
    episodes := [("e", sampleLocalEpisode "E" "http://x/e.mp3")],
    lastRefreshed := 50, downloaded := [] }

/-- State caching `C4wPodcast` under feed URL `u`. -/
def C4wState : StorageState := sampleState [("u", C4wPodcast)] []

/-- An oracle that fails every fetch (the cache hit must not touch it). -/
def failOracle : PageOracle := fun _ => .fetchError

/-- Enclosure oracles whose download always fails. -/
def C9wEnclosure : EnclosureOracles :=
  { download := fun _ => .failure, probeDuration := fun _ => none,
    freshName := "fresh.mp3" }

/-- An empty storage state (nothing cached, nothing on disk). -/
def C5wState : StorageState := sampleState [] []

/-! ## Helper lemmas about the JS dictionary embedding -/

theorem objHas_eq_isSome {α : Type} (m : List (String × α)) (k : String) :
    objHas m k = (objGet m k).isSome := by
  induction m with
  | nil => rfl
  | cons p rest ih =>
      by_cases h : p.1 == k
      · simp [objHas, objGet, List.find?, h]
      · simp only [objHas, objGet, List.find?, List.any_cons, h] at ih ⊢
        simpa [h] using ih

theorem find_map_set {α : Type} (k : String) (v : α) :
    ∀ m : List (String × α), objHas m k = true →
      List.find? (fun p => p.1 == k)
        (m.map (fun p => if p.1 == k then (k, v) else p)) = some (k, v)
  | [], h => by simp [objHas] at h
  | p :: rest, h => by
      by_cases hp : (p.1 == k) = true
      · rw [List.map_cons, if_pos hp, List.find?_cons_of_pos _ (by simp)]
      · rw [List.map_cons, if_neg hp,
          List.find?_cons_of_neg _ (by simpa using hp)]
        refine find_map_set k v rest ?_
        simpa [objHas, hp] using h

theorem find_append_new {α : Type} (k : String) (v : α) :
    ∀ m : List (String × α), objHas m k = false →
      List.find? (fun p => p.1 == k) (m ++ [(k, v)]) = some (k, v)
  | [], _ => by
      rw [List.nil_append, List.find?_cons_of_pos _ (by simp)]
  | p :: rest, h => by
      have h' : ((p.1 == k) || objHas rest k) = false := by
        simpa [objHas] using h
      rw [Bool.or_eq_false_iff] at h'
      rw [List.cons_append, List.find?_cons_of_neg _ (by simp [h'.1])]
      exact find_append_new k v rest h'.2

theorem objGet_objSet_self {α : Type} (m : List (String × α)) (k : String)
    (v : α) : objGet (objSet m k v) k = some v := by
  unfold objSet objGet
  by_cases h : objHas m k
  · rw [if_pos h, find_map_set k v m h]
    rfl
  · rw [if_neg h, find_append_new k v m (by simpa using h)]
    rfl

theorem objHas_objSet_self {α : Type} (m : List (String × α)) (k : String)
    (v : α) : objHas (objSet m k v) k = true := by
  rw [objHas_eq_isSome, objGet_objSet_self]
  rfl

/-! ## Claim theorems -/

/-- C1: the claim that after a completed `updatePodcast` every GUID key of
`downloaded` has an entry in `episodes` (stale records purged, their files
deleted) fails on the code.  At the failing input — cached episode `ep1`
downloaded to file `f1`, refreshed feed containing only `ep2` — the update
completes, yet the stale `ep1` download record survives (carried over
verbatim), `ep1` is absent from the new episodes map, and the enclosure
file `f1` is not deleted: the orphan sweep's `for...in` loop ranges over
the indices of the `invalidGuids` array, not its elements. -/
theorem C1_orphan_sweep_leaves_stale_record :
    (tryUpdatePodcast C1oracle 5 100 C1state "u").2 = true
    ∧ objGet C1podcastAfter.downloaded "ep1" = some { filename := "f1" }
    ∧ objHas C1podcastAfter.episodes "ep1" = false
    ∧ C1resultState.files = ["f1"] := by
  decide

/-- C2: counterexample to the claimed pagination scenario.  With page 1 =
{A,B}, page 2 = {B,C} and `old.episodes` = {A,B}, the refresh does *not*
yield the episodes map {A,B,C}: page 1 already overlaps `old`, so paging
stops there — only one page is fetched and episode C is never seen. -/
theorem C2_pagination_claim_counterexample :
    (tryUpdatePodcast C2oracle 5 100 C2state "u").2 = true
    ∧ objHas C2podcastAfter.episodes "C" = false
    ∧ C2fetchCount = 1 := by
  decide

/-- C2 (amended): in that scenario the refresh stops at the first page
whose GUIDs overlap `old`'s episode set — here page 1 itself — merges that
page with `old` with `old` winning on conflicting GUIDs, fetches only one
page (in particular nothing beyond page 2), and yields the episodes map
{A, B} with `old`'s records. -/
theorem C2_pagination_overlap_stop :
    (tryUpdatePodcast C2oracle 5 100 C2state "u").2 = true
    ∧ objKeys C2podcastAfter.episodes = ["A", "B"]
    ∧ objGet C2podcastAfter.episodes "A" = some C2epA0
    ∧ objGet C2podcastAfter.episodes "B" = some C2epB0
    ∧ C2fetchCount = 1 := by
  decide

/-- C3: counterexample.  When fetching page 2 fails, `updatePodcast` does
*not* complete successfully with the page-1 episodes stored: the error
propagates and the state (including durable storage) is exactly the state
from before the call. -/
theorem C3_later_page_fetch_failure_aborts :
    tryUpdatePodcast C3oracleFetchFail 5 100 C3state "u" = (C3state, false) := by
  decide

/-- C3 (amended): only a failure to *extract the next-page URL* of a page
is caught and treated as the end of pagination — the update then completes
with the episodes accumulated so far stored and persisted (here pages 1
and 2, with the extraction failure on page 2 ending the loop); a fetch or
parse failure of a later page instead aborts the whole operation, storing
nothing. -/
theorem C3_extraction_failure_ends_paging :
    (tryUpdatePodcast C3oracleExtractFail 5 100 C3state "u").2 = true
    ∧ objHas C3podcastAfter.episodes "A" = true
    ∧ objHas C3podcastAfter.episodes "B" = true
    ∧ objHas C3podcastAfter.episodes "C" = true
    ∧ C3resultState.diskLocal = some C3resultState.metadata.localData
    ∧ tryUpdatePodcast C3oracleFetchFail 5 100 C3state "u" = (C3state, false) := by
  decide

/-- C6: counterexample.  `starPodcast` is a public mutating operation that
does not persist: starting from a state whose roaming file is in sync,
`starPodcast` creates and stars the roaming record in memory but leaves
the durable roaming store exactly as it was, out of sync with the mutated
mapping. -/
theorem C6_starPodcast_does_not_persist :
    (starPodcast C6state "u" true).metadata.roaming.podcasts
      = [("u", { starred := true, episodes := [] })]
    ∧ (starPodcast C6state "u" true).diskRoaming = some { podcasts := [] }
    ∧ (starPodcast C6state "u" true).diskRoaming
        ≠ some (starPodcast C6state "u" true).metadata.roaming := by
  decide

/-- C7: the claim that the stored episode description is the primary /
summary field (falling back to the secondary description) fails on the
code.  At the failing input — an item with `itunes:summary`
"Great episode" and `description` "Alt text" — the parser's item-close
handler coalesces the description to the plain string "Great episode",
and `loadPodcastFeed` then reads `.primary` / `.alternate` off that
string, so the stored `LocalEpisodeMetadata.description` is `undefined`
rather than "Great episode". -/
theorem C7_description_is_always_undefined :
    closeItemDescription C7tmp = EpisodeDescValue.str "Great episode"
    ∧ objGet (buildFeed 100 C7feed).episodes "g"
        = some { title := "T", description := none, homepageUrl := none,
                 duration := none, published := none,
                 enclosureUrl := "http://x/1.mp3" } := by
  decide

/-- C8: counterexample.  A textual itunes duration with four
colon-separated components is not converted by summing
`value * 60^position-from-right`: the parser evaluates "1:0:0:0" to
86400 seconds (the fourth multiplier is 24·60·60, a day), while the
claimed formula gives `weightedSum [0, 0, 0, 1] = 216000`. -/
theorem C8_fourth_component_is_days :
    parseItunesDuration "1:0:0:0" = some 86400
    ∧ parseComponents ((splitColon "1:0:0:0").reverse) = some [0, 0, 0, 1]
    ∧ weightedSum [0, 0, 0, 1] = 216000 := by
  decide

/-- C10: when the roaming metadata file does not exist at `loadMetadata`
time (whatever the local file holds), the store is initialized from the
hard-coded default, and `getStarredPodcastUrls` on the fresh store returns
exactly the five default feed URLs. -/
theorem C10_default_starred_podcasts (diskLocal : Option LocalStorageMetadata) :
    (loadMetadata diskLocal none).roaming = DEFAULT_STORAGE_METADATA.roaming
    ∧ getStarredPodcastUrls
        { metadata := loadMetadata diskLocal none, diskLocal := diskLocal,
          diskRoaming := none, files := [] }
      = ["https://rss.simplecast.com/podcasts/363/rss",
         "https://feeds.simplecast.com/gvtxUiIf",
         "http://feeds.feedburner.com/ProgrammingThrowdown",
         "https://changelog.com/podcast/feed",
         "https://feeds.simplecast.com/k0fI37e5"] := by
  cases diskLocal <;> exact ⟨rfl, rfl⟩

/-- C5: if fetching (or parsing) the first page fails, `updatePodcast`
fails as a whole and the caller's state — in particular the stored local
mapping entry for `url` — is exactly what it was before the call. -/
theorem C5_first_page_failure_preserves_state (oracle : PageOracle)
    (fuel : Nat) (now : Int) (st : StorageState) (url : String)
    (h : oracle url = .fetchError) :
    updatePodcast oracle fuel now st url = .error ()
    ∧ tryUpdatePodcast oracle fuel now st url = (st, false) := by
  have hloop : ∀ old,
      updateLoop oracle now old fuel (some url) none 0 = .error () := by
    intro old
    cases fuel with
    | zero => rfl
    | succ n =>
        by_cases hu : url = ""
        · subst hu
          simp [updateLoop]
        · simp [updateLoop, hu, loadPodcastFeed, h]
  constructor
  · rw [updatePodcast, hloop]
  · rw [tryUpdatePodcast, updatePodcast, hloop]

/-- C5 witness: a concrete first-page failure. -/
theorem C5_first_page_failure_witness :
    tryUpdatePodcast failOracle 5 100 C5wState "u" = (C5wState, false) :=
  (C5_first_page_failure_preserves_state failOracle 5 100 C5wState "u" rfl).2

/-- C4: `fetchPodcast url (now - T)` (the argument is the absolute cutoff
timestamp `now - updateIfOlderThanMs`, as at all call sites) returns the
cached view with no network fetch and no `updatePodcast` call whenever a
cached podcast exists and either no bound is given or
`lastRefreshed ≥ now - T`; otherwise (stale cache, or no cached podcast at
all) it consists of exactly one `updatePodcast` fetch sequence. -/
theorem C4_staleness_bound (oracle : PageOracle) (fuel : Nat) (now T : Int)
    (st : StorageState) (url : String) :
    (∀ p : LocalPodcastMetadata,
      objGet st.metadata.localData.podcasts url = some p →
      0 ≤ p.lastRefreshed →
      fetchPodcast oracle fuel now st url none = .ok (st, 0, 0)
      ∧ (now - T ≤ p.lastRefreshed →
          fetchPodcast oracle fuel now st url (some (now - T)) = .ok (st, 0, 0))
      ∧ (p.lastRefreshed < now - T →
          fetchPodcast oracle fuel now st url (some (now - T))
            = (updatePodcast oracle fuel now st url).map (fun r => (r.1, 1, r.2))))
    ∧ (objGet st.metadata.localData.podcasts url = none →
        ∀ b : Option Int,
          fetchPodcast oracle fuel now st url b
            = (updatePodcast oracle fuel now st url).map (fun r => (r.1, 1, r.2))) := by
  constructor
  · intro p hp h0
    have hhas : hasLocalPodcast st url = true := by
      rw [hasLocalPodcast, objHas_eq_isSome, hp]
      rfl
    refine ⟨?_, ?_, ?_⟩
    · simp [fetchPodcast, hhas]
    · intro hle
      have hnl : ¬ (p.lastRefreshed < now - T) := not_lt.mpr hle
      simp [fetchPodcast, hhas, getPodcast, hp, hnl]
    · intro hlt
      have hT : now - T ≠ 0 := by
        intro h0'
        rw [h0'] at hlt
        exact absurd (lt_of_le_of_lt h0 hlt) (lt_irrefl 0)
      simp only [fetchPodcast, hhas, if_true, getPodcast, hp]
      simp [hT, hlt]
      cases hu : updatePodcast oracle fuel now st url with
      | ok r => simp [Except.map]
      | error e => simp [Except.map]
  · intro hn b
    have hhas : hasLocalPodcast st url = false := by
      rw [hasLocalPodcast, objHas_eq_isSome, hn]
      rfl
    simp [fetchPodcast, hhas]
    cases hu : updatePodcast oracle fuel now st url with
    | ok r => simp [Except.map]
    | error e => simp [Except.map]

/-- C4 witness: a fresh cache (refreshed at 50, cutoff 100 − 60 = 40) is
served without any fetch. -/
theorem C4_staleness_bound_witness :
    fetchPodcast failOracle 1 100 C4wState "u" (some (100 - 60))
      = .ok (C4wState, 0, 0) :=
  ((C4_staleness_bound failOracle 1 100 60 C4wState "u").1 C4wPodcast
    (by decide) (by decide)).2.1 (by decide)

/-- C6 (amended): `storeListeningStatus` persists the mutated roaming
mapping to durable storage before returning, and `starPodcast` creates
the `RoamingPodcast` record on demand and sets its star flag — but
`starPodcast` itself touches neither durable store (its callers issue the
`saveMetadata` separately). -/
theorem C6_roaming_mutations (st st2 : StorageState)
    (feedUrl feedUrl2 guid : String) (completed star : Bool)
    (position : Option Int) (now : Int) :
    (storeListeningStatus st feedUrl guid completed position now).diskRoaming
      = some (storeListeningStatus st feedUrl guid completed position now).metadata.roaming
    ∧ (starPodcast st2 feedUrl2 star).diskRoaming = st2.diskRoaming
    ∧ (starPodcast st2 feedUrl2 star).diskLocal = st2.diskLocal
    ∧ isStarredPodcast (starPodcast st2 feedUrl2 star) feedUrl2 = star
    ∧ objHas (starPodcast st2 feedUrl2 star).metadata.roaming.podcasts feedUrl2
        = true := by
  refine ⟨?_, ?_, ?_, ?_, ?_⟩
  · simp [storeListeningStatus, saveMetadata, getOrCreateRoamingEpisode,
      getOrCreateRoamingPodcast]
  · simp [starPodcast, getOrCreateRoamingPodcast]
  · simp [starPodcast, getOrCreateRoamingPodcast]
  · simp [isStarredPodcast, starPodcast, getOrCreateRoamingPodcast,
      objGet_objSet_self]
  · simp [starPodcast, getOrCreateRoamingPodcast, objHas_objSet_self]

/-- C8 helper: for at most three colon-separated components whose values
`parseInt` to `vs` (rightmost first), the reducer computes the
`value * 60^position-from-right` sum. -/
theorem reduceDuration_eq_weightedSum (cs : List String) (vs : List Int)
    (hlen : cs.length ≤ 3) (hvs : parseComponents cs = some vs) :
    reduceDuration cs = some (weightedSum vs) := by
  match cs with
  | [] =>
      simp [parseComponents] at hvs
      subst hvs
      rfl
  | [a] =>
      cases h1 : jsParseInt a with
      | none => simp [parseComponents, h1] at hvs
      | some v1 =>
          simp [parseComponents, h1] at hvs
          subst hvs
          simp [reduceDuration, reduceDurationAux, h1, durationMultiplier,
            durationSteps, weightedSum]
  | [a, b] =>
      cases h1 : jsParseInt a with
      | none => simp [parseComponents, h1] at hvs
      | some v1 =>
          cases h2 : jsParseInt b with
          | none => simp [parseComponents, h1, h2] at hvs
          | some v2 =>
              simp [parseComponents, h1, h2] at hvs
              subst hvs
              simp [reduceDuration, reduceDurationAux, h1, h2,
                durationMultiplier, durationSteps, weightedSum]
              ring
  | [a, b, c] =>
      cases h1 : jsParseInt a with
      | none => simp [parseComponents, h1] at hvs
      | some v1 =>
          cases h2 : jsParseInt b with
          | none => simp [parseComponents, h1, h2] at hvs
          | some v2 =>
              cases h3 : jsParseInt c with
              | none => simp [parseComponents, h1, h2, h3] at hvs
              | some v3 =>
                  simp [parseComponents, h1, h2, h3] at hvs
                  subst hvs
                  simp [reduceDuration, reduceDurationAux, h1, h2, h3,
                    durationMultiplier, durationSteps, weightedSum]
                  ring
  | _ :: _ :: _ :: _ :: _ =>
      simp at hlen

/-- C8 (amended): for a textual itunes duration of at most three
colon-separated components (the `HH:MM:SS` / `MM:SS` family) the parser
converts to seconds by summing `value * 60^position-from-right`
(a fourth component would instead be multiplied by 24·60·60); in
particular "1:03:13" parses to 3793 seconds and "5:30" to 330 seconds. -/
theorem C8_duration_formula :
    (∀ (s : String) (vs : List Int),
      ((splitColon s).reverse).length ≤ 3 →
      parseComponents ((splitColon s).reverse) = some vs →
      parseItunesDuration s = some (weightedSum vs))
    ∧ parseItunesDuration "1:03:13" = some 3793
    ∧ parseItunesDuration "5:30" = some 330 := by
  refine ⟨?_, by decide, by decide⟩
  intro s vs hlen hvs
  exact reduceDuration_eq_weightedSum _ _ hlen hvs

/-- C8 witness: the formula applied to "1:03:13". -/
theorem C8_duration_formula_witness :
    parseItunesDuration "1:03:13" = some (weightedSum [13, 3, 1]) :=
  C8_duration_formula.1 "1:03:13" [13, 3, 1] (by decide) (by decide)

/-- C9: when the feed is cached, the episode exists and is not yet
downloaded, and the enclosure download fails or is cancelled,
`fetchEpisodeEnclosure` propagates the error and the caller's state is
exactly the prior state: no download record, no metadata persist, no file
at the target path. -/
theorem C9_failed_download_leaves_no_state (oracle : PageOracle)
    (enc : EnclosureOracles) (fuel : Nat) (now : Int) (st : StorageState)
    (feedUrl guid : String) (p : LocalPodcastMetadata)
    (e : LocalEpisodeMetadata)
    (hp : objGet st.metadata.localData.podcasts feedUrl = some p)
    (hnd : objHas p.downloaded guid = false)
    (he : objGet p.episodes guid = some e)
    (hdl : enc.download e.enclosureUrl = .failure) :
    fetchEpisodeEnclosure oracle enc fuel now st feedUrl guid = .error ()
    ∧ tryFetchEpisodeEnclosure oracle enc fuel now st feedUrl guid
        = (st, false) := by
  have hhas : hasLocalPodcast st feedUrl = true := by
    rw [hasLocalPodcast, objHas_eq_isSome, hp]
    rfl
  have hfp : fetchPodcast oracle fuel now st feedUrl none = .ok (st, 0, 0) := by
    simp [fetchPodcast, hhas]
  constructor
  · simp [fetchEpisodeEnclosure, hfp, hp, hnd, he, hdl]
  · simp [tryFetchEpisodeEnclosure, fetchEpisodeEnclosure, hfp, hp, hnd, he, hdl]

/-- C9 witness: a concrete failed download. -/
theorem C9_failed_download_witness :
    tryFetchEpisodeEnclosure failOracle C9wEnclosure 1 100 C4wState "u" "e"
      = (C4wState, false) :=
  (C9_failed_download_leaves_no_state failOracle C9wEnclosure 1 100 C4wState
    "u" "e" C4wPodcast (sampleLocalEpisode "E" "http://x/e.mp3")
    (by decide) (by decide) (by decide) (by decide)).2

end Podcasts
